import Mathlib

/-!
Verification of the Fibo_Goat orchestration layer.

The repository ships `src/main.py` (application startup, Flask liveness
endpoints) and `src/fibo_bot_final/bot/telegram_bot.py` (the notification
dispatch layer).  The signal state machine, credit budget, pair-state store
and scheduler are referenced by `main.py` but their modules are not part of
the source tree, so those components are modelled from the specification
(each such definition says so in its doc comment).  Everything else is a
shallow embedding of the Python source.
-/

namespace FiboGoat

/-- Status of a monitored pair, per the data model: NEUTRAL, ZONE_ENTERED,
CONFIRMED, and the transient BROKEN. -/
inductive Status
  | NEUTRAL
  | ZONE_ENTERED
  | CONFIRMED
  | BROKEN
deriving DecidableEq, Repr, Fintype

/-- Kinds of notification events produced by the signal engine. -/
inductive EventKind
  | zoneEntered
  | signalConfirmed
  | zoneBroken
deriving DecidableEq, Repr, Fintype

/-- One scan tick's observation of a single pair, as delivered by the market
data gateway: whether the price lies inside the 0.500-0.618 retracement band,
whether the higher-timeframe direction filters agree, whether the smoothed
candle trend agrees, and the two secondary confirmation booleans. -/
structure Obs where
  inBand : Bool
  filtersAgree : Bool
  haAgrees : Bool
  rsiDivergence : Bool
  srConfluence : Bool
deriving DecidableEq, Repr, Fintype

/-- Modelled from the spec: the per-pair state machine of SignalEngine
(spec section 4.2), whose module is absent from src/.  Raw transition of one
tick, before the transient BROKEN state folds back to NEUTRAL.  NEUTRAL moves
to ZONE_ENTERED when price enters the band with agreeing direction filters
(emitting zone-entered); ZONE_ENTERED confirms when a secondary signal
(rsi divergence or s/r confluence) is true while still in band (emitting
signal-confirmed), or moves to BROKEN when price exits the band (emitting
zone-broken); CONFIRMED moves to BROKEN when price exits the band (emitting
zone-broken); BROKEN folds to NEUTRAL immediately. -/
def stepRaw : Status → Obs → Status × Option EventKind
  | Status.NEUTRAL, o =>
      if o.inBand && o.filtersAgree then (Status.ZONE_ENTERED, some EventKind.zoneEntered)
      else (Status.NEUTRAL, none)
  | Status.ZONE_ENTERED, o =>
      if o.inBand then
        if o.rsiDivergence || o.srConfluence then
          (Status.CONFIRMED, some EventKind.signalConfirmed)
        else (Status.ZONE_ENTERED, none)
      else (Status.BROKEN, some EventKind.zoneBroken)
  | Status.CONFIRMED, o =>
      if o.inBand then (Status.CONFIRMED, none)
      else (Status.BROKEN, some EventKind.zoneBroken)
  | Status.BROKEN, _ => (Status.NEUTRAL, none)

/-- Modelled from the spec: BROKEN is transient and folds to NEUTRAL after
emission, so it is never the persisted status. -/
def foldBroken : Status → Status
  | Status.BROKEN => Status.NEUTRAL
  | s => s

/-- Modelled from the spec: one full scan tick for a pair: the raw transition
followed by the immediate fold of the transient BROKEN state.  The first
component is the status persisted by the tick. -/
def tick (s : Status) (o : Obs) : Status × Option EventKind :=
  let t := stepRaw s o
  (foldBroken t.fst, t.snd)

/-- The transition edges the spec allows between persisted statuses:
self-loops, NEUTRAL to ZONE_ENTERED, ZONE_ENTERED to CONFIRMED or (via
BROKEN) back to NEUTRAL, CONFIRMED (via BROKEN) back to NEUTRAL, and the
fold of a transient BROKEN to NEUTRAL. -/
def allowedTransition : Status → Status → Bool
  | Status.NEUTRAL, Status.NEUTRAL => true
  | Status.NEUTRAL, Status.ZONE_ENTERED => true
  | Status.ZONE_ENTERED, Status.ZONE_ENTERED => true
  | Status.ZONE_ENTERED, Status.CONFIRMED => true
  | Status.ZONE_ENTERED, Status.NEUTRAL => true
  | Status.CONFIRMED, Status.CONFIRMED => true
  | Status.CONFIRMED, Status.NEUTRAL => true
  | Status.BROKEN, Status.NEUTRAL => true
  | _, _ => false

/-- Successive persisted statuses along a sequence of scan ticks. -/
def trace (s : Status) : List Obs → List Status
  | [] => []
  | o :: os =>
      let s' := (tick s o).fst
      s' :: trace s' os

theorem tick_allowed (s : Status) (o : Obs) :
    allowedTransition s (tick s o).fst = true := by
  revert s o; decide

theorem trace_chain (os : List Obs) :
    ∀ s : Status, List.Chain (fun a b => allowedTransition a b = true) s (trace s os) := by
  induction os with
  | nil => intro s; exact List.Chain.nil
  | cons o os ih =>
      intro s
      exact List.Chain.cons (tick_allowed s o) (ih ((tick s o).fst))

/-- C1: the persisted status only ever changes along the allowed paths
NEUTRAL to ZONE_ENTERED to CONFIRMED back to NEUTRAL, or NEUTRAL to
ZONE_ENTERED back to NEUTRAL (via the transient BROKEN): every single tick
takes an allowed edge, the persisted status is never BROKEN, and along any
sequence of scan ticks from NEUTRAL every consecutive pair of statuses is an
allowed edge. -/
theorem status_transitions_allowed :
    (∀ (s : Status) (o : Obs),
        allowedTransition s (tick s o).fst = true ∧ (tick s o).fst ≠ Status.BROKEN) ∧
    (∀ os : List Obs,
        List.Chain (fun a b => allowedTransition a b = true) Status.NEUTRAL
          (trace Status.NEUTRAL os)) := by
  constructor
  · intro s o
    refine ⟨tick_allowed s o, ?_⟩
    revert s o; decide
  · intro os
    exact trace_chain os Status.NEUTRAL

/-- Number of signal-confirmed events emitted by the engine starting in
status `s`, over a sequence of ticks, counting only until the status first
folds back to NEUTRAL (at that point the zone-entry episode ends). -/
def confirmCount : Status → List Obs → Nat
  | _, [] => 0
  | s, o :: os =>
      let t := tick s o
      (if t.snd = some EventKind.signalConfirmed then 1 else 0) +
        (if t.fst = Status.NEUTRAL then 0 else confirmCount t.fst os)

theorem confirmCount_confirmed (os : List Obs) :
    confirmCount Status.CONFIRMED os = 0 := by
  induction os with
  | nil => rfl
  | cons o os ih =>
      by_cases h : o.inBand = true
      · simp [confirmCount, tick, stepRaw, foldBroken, h, ih]
      · simp at h
        simp [confirmCount, tick, stepRaw, foldBroken, h]

/-- C2: within a single zone-entry episode (from the transition into
ZONE_ENTERED until the status folds back to NEUTRAL), at most one
signal-confirmed event is emitted, for every sequence of scan ticks —
including repeated ticks that observe an unchanged CONFIRMED status. -/
theorem signal_confirmed_once_per_episode (os : List Obs) :
    confirmCount Status.ZONE_ENTERED os ≤ 1 := by
  induction os with
  | nil => simp [confirmCount]
  | cons o os ih =>
      by_cases hb : o.inBand = true
      · by_cases hs : (o.rsiDivergence || o.srConfluence) = true
        · simp [confirmCount, tick, stepRaw, foldBroken, hb, hs,
            confirmCount_confirmed]
        · simp at hs
          simp [confirmCount, tick, stepRaw, foldBroken, hb, hs.1, hs.2, ih]
      · simp at hb
        simp [confirmCount, tick, stepRaw, foldBroken, hb]

/-- Modelled from the spec: the CreditBudget guard (spec section 4.4), whose
module is absent from src/: window start, consumption so far, and the rolling
window cap (default 800). -/
structure CreditBudget where
  windowStart : Nat
  consumed : Nat
  cap : Nat
deriving DecidableEq, Repr

/-- Modelled from the spec: `reserve(cost)` answers allow and adds the cost
to the consumption when it fits under the cap, and answers deny leaving the
budget unchanged otherwise.  The spec makes reserve/consume one atomic
operation on the shared guard. -/
def reserve (b : CreditBudget) (cost : Nat) : Bool × CreditBudget :=
  if b.consumed + cost ≤ b.cap then
    (true, { b with consumed := b.consumed + cost })
  else (false, b)

/-- Modelled from the spec: the window resets at a fixed wall-clock boundary,
zeroing consumption. -/
def resetWindow (b : CreditBudget) (now : Nat) : CreditBudget :=
  { b with windowStart := now, consumed := 0 }

/-- An atomic operation on the shared CreditBudget guard.  The spec's
concurrency model makes reserve/consume atomic, so any interleaving of
concurrent evaluators is a sequence of these operations. -/
inductive BudgetOp
  | reserveOp (cost : Nat)
  | resetOp (now : Nat)
deriving DecidableEq, Repr

def applyOp (b : CreditBudget) : BudgetOp → CreditBudget
  | BudgetOp.reserveOp c => (reserve b c).snd
  | BudgetOp.resetOp t => resetWindow b t

def applyOps (b : CreditBudget) (ops : List BudgetOp) : CreditBudget :=
  ops.foldl applyOp b

theorem applyOp_consumed_le (b : CreditBudget) (op : BudgetOp)
    (h : b.consumed ≤ b.cap) :
    (applyOp b op).consumed ≤ (applyOp b op).cap := by
  cases op with
  | reserveOp c =>
      by_cases hc : b.consumed + c ≤ b.cap
      · simp [applyOp, reserve, hc]
      · simp [applyOp, reserve, hc, h]
  | resetOp t => simp [applyOp, resetWindow]

/-- C3: in every reachable state of the CreditBudget guard, consumption stays
at or below the cap: starting from any budget satisfying the invariant, no
sequence of atomic reserve/reset operations — hence no interleaving of
concurrent evaluators — drives `consumed` above `cap`. -/
theorem credit_consumed_le_cap (b : CreditBudget) (ops : List BudgetOp)
    (h : b.consumed ≤ b.cap) :
    (applyOps b ops).consumed ≤ (applyOps b ops).cap := by
  induction ops generalizing b with
  | nil => simpa [applyOps] using h
  | cons op rest ih =>
      have hstep := applyOp_consumed_le b op h
      simpa [applyOps, List.foldl_cons] using ih (applyOp b op) hstep

theorem credit_consumed_le_cap_witness :
    (applyOps { windowStart := 0, consumed := 0, cap := 800 }
        [BudgetOp.reserveOp 60, BudgetOp.reserveOp 900, BudgetOp.resetOp 5,
         BudgetOp.reserveOp 800]).consumed ≤
      (applyOps { windowStart := 0, consumed := 0, cap := 800 }
        [BudgetOp.reserveOp 60, BudgetOp.reserveOp 900, BudgetOp.resetOp 5,
         BudgetOp.reserveOp 800]).cap :=
  credit_consumed_le_cap { windowStart := 0, consumed := 0, cap := 800 }
    [BudgetOp.reserveOp 60, BudgetOp.reserveOp 900, BudgetOp.resetOp 5,
     BudgetOp.reserveOp 800] (by decide)

/-- Modelled from the spec: the scan tick's evaluation loop over the pair
list (pairs identified by index, each with its gateway call cost).  Each pair
first reserves its cost; on allow the pair is evaluated and the loop
continues, on deny the tick stops and defers this pair and all remaining
pairs to the next tick, without raising.  Returns the final budget, the
evaluated pairs (which keep their results) and the deferred pairs. -/
def runTick (b : CreditBudget) : List (Nat × Nat) → CreditBudget × List Nat × List Nat
  | [] => (b, [], [])
  | (p, cost) :: rest =>
      match reserve b cost with
      | (true, b') =>
          let t := runTick b' rest
          (t.fst, p :: t.snd.fst, t.snd.snd)
      | (false, _) => (b, [], p :: rest.map Prod.fst)

theorem runTick_no_pair_dropped (ps : List (Nat × Nat)) :
    ∀ b : CreditBudget,
      (runTick b ps).snd.fst ++ (runTick b ps).snd.snd = ps.map Prod.fst := by
  induction ps with
  | nil => intro b; rfl
  | cons pr rest ih =>
      intro b
      obtain ⟨p, cost⟩ := pr
      by_cases hc : b.consumed + cost ≤ b.cap
      · simp [runTick, reserve, hc, ih]
      · simp [runTick, reserve, hc]

/-- C4: a deny from the CreditBudget guard never fails the tick: the loop is
a total function, every pair ends either evaluated or deferred (none is
dropped), and in the concrete scenario of 14 pairs each costing 60 credits
against cap 800, exactly the first 13 pairs are evaluated (consuming 780
credits) and the 14th is deferred. -/
theorem budget_deny_defers_tick :
    (∀ (b : CreditBudget) (ps : List (Nat × Nat)),
        (runTick b ps).snd.fst ++ (runTick b ps).snd.snd = ps.map Prod.fst) ∧
    runTick { windowStart := 0, consumed := 0, cap := 800 }
        ((List.range 14).map (fun i => (i, 60))) =
      ({ windowStart := 0, consumed := 780, cap := 800 }, List.range 13, [13]) := by
  constructor
  · intro b ps
    exact runTick_no_pair_dropped ps b
  · decide

/-- Trade direction stored in a pair's state. -/
inductive Direction
  | bullish
  | bearish
  | none
deriving DecidableEq, Repr

/-- Modelled from the spec: the record persisted per pair by PairStateStore
(spec sections 3 and 4.3), whose module is absent from src/: status, active
direction, entry price, zone bounds, last-transition timestamp. -/
structure PairState where
  status : Status
  direction : Direction
  entryPrice : ℚ
  zoneLow : ℚ
  zoneHigh : ℚ
  lastTransition : Nat
deriving DecidableEq, Repr

def defaultPairState : PairState :=
  { status := Status.NEUTRAL, direction := Direction.none, entryPrice := 0,
    zoneLow := 0, zoneHigh := 0, lastTransition := 0 }

/-- The durable store: one record per pair symbol. -/
abbrev Store := List (String × PairState)

/-- Modelled from the spec: `load(pair)` returns the last committed state,
defaulting to NEUTRAL if absent. -/
def load (st : Store) (pair : String) : PairState :=
  (st.lookup pair).getD defaultPairState

/-- Modelled from the spec: `commit(pair, newState)` durably replaces the
pair's record. -/
def commit (st : Store) (pair : String) (s : PairState) : Store :=
  (pair, s) :: st

/-- A process crash relative to an in-flight commit: atomicity means the
durable store either still holds the old record or already holds the whole
new one — never a mix of fields. -/
inductive CrashPoint
  | beforeCommit
  | afterCommit
deriving DecidableEq, Repr

/-- Modelled from the spec: the store visible after restarting from a crash
around a commit.  Because commit is atomic, a crash before it leaves the old
store and a crash after it leaves the new store. -/
def commitWithCrash (st : Store) (pair : String) (s : PairState) :
    CrashPoint → Store
  | CrashPoint.beforeCommit => st
  | CrashPoint.afterCommit => commit st pair s

/-- C5: commits are atomic with respect to a process crash: after restarting
from any crash point the loaded state for the pair is either exactly the
previously committed state or exactly the newly committed one, never a
partially-written mix; and no notification is replayed for an
already-committed status, because a tick that leaves the persisted status
unchanged emits no event. -/
theorem pairState_commit_atomic :
    (∀ (st : Store) (pair : String) (s : PairState) (cp : CrashPoint),
        load (commitWithCrash st pair s cp) pair = load st pair ∨
          load (commitWithCrash st pair s cp) pair = s) ∧
    (∀ (s : Status) (o : Obs), (tick s o).fst = s → (tick s o).snd = none) := by
  constructor
  · intro st pair s cp
    cases cp with
    | beforeCommit => exact Or.inl rfl
    | afterCommit =>
        right
        simp [commitWithCrash, commit, load, List.lookup]
  · decide

theorem pairState_commit_atomic_witness :
    (tick Status.CONFIRMED
        { inBand := true, filtersAgree := true, haAgrees := true,
          rsiDivergence := true, srConfluence := false }).snd = none :=
  pairState_commit_atomic.2 Status.CONFIRMED
    { inBand := true, filtersAgree := true, haAgrees := true,
      rsiDivergence := true, srConfluence := false } (by decide)

/-- Modelled from the spec: the in-band test of SignalEngine.evaluate, whose
module is absent from src/.  Given the 0.500-level and 0.618-level bounds of
the retracement band, a price is inside the band exactly when it lies between
them, with both bounds inclusive. -/
def evaluateInBand (lowerBound upperBound price : ℚ) : Bool :=
  decide (lowerBound ≤ price ∧ price ≤ upperBound)

/-- C6: the in-band test uses inclusive bounds: a price is classified inside
the retracement band exactly when the 0.500-level bound ≤ price ≤ the
0.618-level bound, so a price exactly equal to either boundary counts as
inside the band. -/
theorem band_bounds_inclusive (lowerBound upperBound price : ℚ) :
    (evaluateInBand lowerBound upperBound price = true ↔
      (lowerBound ≤ price ∧ price ≤ upperBound)) ∧
    (lowerBound ≤ upperBound →
      evaluateInBand lowerBound upperBound lowerBound = true ∧
        evaluateInBand lowerBound upperBound upperBound = true) := by
  constructor
  · simp [evaluateInBand]
  · intro h
    constructor <;> simp [evaluateInBand] <;> exact h

theorem band_bounds_inclusive_witness :
    evaluateInBand (1 / 2 : ℚ) (618 / 1000) (1 / 2) = true ∧
      evaluateInBand (1 / 2 : ℚ) (618 / 1000) (618 / 1000) = true :=
  (band_bounds_inclusive (1 / 2) (618 / 1000) (55 / 100)).2 (by norm_num)

/-- Outcome of the underlying transport call `application.bot.send_message`
inside the try block: either the message is delivered, or the awaited call
raises an exception carrying a description. -/
inductive SendOutcome
  | delivered
  | raised (err : String)
deriving DecidableEq, Repr

/-- The python-telegram-bot `Application` as `FiboBotManager` uses it: its
bot's send behaviour for a given chat id and text. -/
structure Application where
  send : Int → String → SendOutcome

/-- `FiboBotManager` (telegram_bot.py): holds an optional application,
assigned by `setup`; `__init__` (lines 15-17) leaves it None. -/
structure FiboBotManager where
  application : Option Application

/-- `FiboBotManager.__init__` (telegram_bot.py lines 15-17). -/
def FiboBotManager.init : FiboBotManager :=
  { application := none }

/-- One line written to the logger. -/
inductive LogEntry
  | info (msg : String)
  | error (msg : String)
deriving DecidableEq, Repr

/-- Observable effect of one `FiboBotManager` method call: the log lines it
writes and the chat messages it actually delivers.  The method's Python
return value is always None and the total Lean return type records that it
never raises to its caller. -/
structure CallResult where
  logs : List LogEntry
  sent : List (Int × String)
deriving DecidableEq, Repr

/-- `FiboBotManager.send_message` (telegram_bot.py lines 40-59): inside a
try/except, if the application is set it awaits the bot's send and logs an
info line; the except clause catches any exception from the send and logs it;
if the application is None it only logs an error.  No path re-raises and no
path sends anything other than the given message. -/
def send_message (m : FiboBotManager) (chat_id : Int) (message : String) :
    CallResult :=
  match m.application with
  | some app =>
      match app.send chat_id message with
      | SendOutcome.delivered =>
          { logs := [LogEntry.info ("Message envoyé à " ++ toString chat_id)],
            sent := [(chat_id, message)] }
      | SendOutcome.raised e =>
          { logs := [LogEntry.error ("Erreur envoi message: " ++ e)],
            sent := [] }
  | none =>
      { logs := [LogEntry.error "Bot non initialisé"], sent := [] }

/-- The signal payload consumed by `send_signal_notification` via
`signal.get(...)` with defaults. -/
structure Signal where
  symbol : String
  signal_type : String
  price : ℚ
  fib_zone : String
  rsi_divergence : Bool
  sr_confluence : Bool
deriving DecidableEq, Repr

/-- Message template of `send_signal_notification` (telegram_bot.py lines
74-93); the Python `:.5f` numeric rendering is abstracted to `toString`. -/
def format_signal_message (s : Signal) : String :=
  let up := s.signal_type.toUpper
  (if up = "BULLISH" then "📊" else "📉") ++
    " <b>[" ++ s.symbol ++ "] - SETUP " ++ up ++ "</b>\n" ++
    "├─ Filtres W1/D1: ✅ " ++ up ++ "\n" ++
    "├─ GA: 0.500-0.618 [" ++ s.fib_zone ++ "]\n" ++
    "├─ Heiken Ashi: " ++
    (if up = "BULLISH" then "Haussier" else "Baissier") ++ " ✅\n" ++
    "├─ Prix: " ++ toString s.price ++ "\n" ++
    "├─ RSI: Divergence " ++ (if s.rsi_divergence then "🟢" else "⚪") ++ "\n" ++
    "└─ S/R: Confluence " ++ (if s.sr_confluence then "🟢" else "⚪")

/-- `FiboBotManager.send_signal_notification` (telegram_bot.py lines 61-97):
formats the signal and delegates to `send_message`; its own try/except can
only log, never raise or send. -/
def send_signal_notification (m : FiboBotManager) (chat_id : Int)
    (s : Signal) : CallResult :=
  send_message m chat_id (format_signal_message s)

/-- C7: notification delivery failures are contained in the dispatch layer:
`send_message` always returns (total type — it never raises to its caller),
it only ever delivers the requested message or nothing at all, and when the
underlying transport raises it delivers nothing and writes the error to the
log; `send_signal_notification` likewise delivers either its formatted signal
message or nothing, so no delivery or formatting error ever becomes a chat
message. -/
theorem send_message_errors_logged_only :
    ∀ (m : FiboBotManager) (chat_id : Int) (message : String),
      ((send_message m chat_id message).sent = [(chat_id, message)] ∨
        (send_message m chat_id message).sent = []) ∧
      (∀ (app : Application) (e : String),
        m.application = some app → app.send chat_id message = SendOutcome.raised e →
          (send_message m chat_id message).sent = [] ∧
            LogEntry.error ("Erreur envoi message: " ++ e) ∈
              (send_message m chat_id message).logs) ∧
      (∀ s : Signal,
        (send_signal_notification m chat_id s).sent =
            [(chat_id, format_signal_message s)] ∨
          (send_signal_notification m chat_id s).sent = []) := by
  intro m chat_id message
  refine ⟨?_, ?_, ?_⟩
  · match h : m.application with
    | some app =>
        match hs : app.send chat_id message with
        | SendOutcome.delivered => left; simp [send_message, h, hs]
        | SendOutcome.raised e => right; simp [send_message, h, hs]
    | none => right; simp [send_message, h]
  · intro app e happ hsend
    simp [send_message, happ, hsend]
  · intro s
    match h : m.application with
    | some app =>
        match hs : app.send chat_id (format_signal_message s) with
        | SendOutcome.delivered =>
            left; simp [send_signal_notification, send_message, h, hs]
        | SendOutcome.raised e =>
            right; simp [send_signal_notification, send_message, h, hs]
    | none => right; simp [send_signal_notification, send_message, h]

def failingApp : Application :=
  { send := fun _ _ => SendOutcome.raised "Timed out" }

theorem send_message_errors_logged_only_witness :
    (send_message { application := some failingApp } 7 "hello").sent = [] ∧
      LogEntry.error ("Erreur envoi message: " ++ "Timed out") ∈
        (send_message { application := some failingApp } 7 "hello").logs :=
  (send_message_errors_logged_only { application := some failingApp } 7
      "hello").2.1 failingApp "Timed out" rfl rfl

/-- C10: calling `send_message` before `setup` has assigned an application is
a safe no-op: with `application = None` — as `__init__` leaves it — the
method writes exactly the "Bot non initialisé" error log line, delivers
nothing, and returns normally (total type — no exception), for every chat id
and message. -/
theorem send_message_before_setup_noop :
    FiboBotManager.init.application = none ∧
      ∀ (m : FiboBotManager) (chat_id : Int) (message : String),
        m.application = none →
          send_message m chat_id message =
            { logs := [LogEntry.error "Bot non initialisé"], sent := [] } := by
  refine ⟨rfl, ?_⟩
  intro m chat_id message h
  simp [send_message, h]

theorem send_message_before_setup_noop_witness :
    send_message FiboBotManager.init 0 "ping" =
      { logs := [LogEntry.error "Bot non initialisé"], sent := [] } :=
  send_message_before_setup_noop.2 FiboBotManager.init 0 "ping" rfl

/-- Environment of fallible startup steps in `FiboBotApplication.initialize`
(src/main.py lines 59-121), in source order: loading the two secrets,
constructing the TwelveData client, opening the database, building the
Telegram application, and setting up the scheduler.  `Except.error` models a
raised exception — in particular a FatalConfigError from bad credentials. -/
structure InitEnv where
  getTelegramToken : Except String String
  getTwelvedataKey : Except String String
  buildApiClient : String → Except String Unit
  openDatabase : Except String Unit
  buildTelegramApp : String → Except String Unit
  setupScheduler : Except String Unit

/-- The body of the try block of `FiboBotApplication.initialize`: the
construction steps run in order and the first raised exception aborts the
rest. -/
def initSteps (env : InitEnv) : Except String Unit := do
  let tok ← env.getTelegramToken
  let key ← env.getTwelvedataKey
  let _ ← env.buildApiClient key
  let _ ← env.openDatabase
  let _ ← env.buildTelegramApp tok
  let _ ← env.setupScheduler
  pure ()

/-- `FiboBotApplication.initialize` (src/main.py lines 59-121): returns True
when every step succeeds; the except clause catches any exception, logs it,
and returns False — nothing is retried. -/
def initApp (env : InitEnv) : Bool :=
  match initSteps env with
  | Except.ok _ => true
  | Except.error _ => false

/-- Which of the three services `FiboBotApplication.start` launches. -/
structure StartedComponents where
  flaskStarted : Bool
  schedulerStarted : Bool
  pollingStarted : Bool
deriving DecidableEq, Repr

/-- `FiboBotApplication.start` (src/main.py lines 132-164): when `initialize`
returns False it logs and returns False before the Flask thread, the
scheduler, or Telegram polling is started; otherwise it starts all three. -/
def startApp (env : InitEnv) : Bool × StartedComponents :=
  if initApp env then
    (true, { flaskStarted := true, schedulerStarted := true,
             pollingStarted := true })
  else
    (false, { flaskStarted := false, schedulerStarted := false,
              pollingStarted := false })

/-- C8: a FatalConfigError at startup aborts without retrying: if loading the
Telegram token raises — or more generally if any construction step raises —
`initialize` returns False, and `start` then returns False with the Flask
server, the scheduler and Telegram polling all unstarted. -/
theorem fatal_config_aborts_startup :
    ∀ env : InitEnv,
      ((∃ msg, env.getTelegramToken = Except.error msg) → initApp env = false) ∧
      ((∃ msg, initSteps env = Except.error msg) → initApp env = false) ∧
      (initApp env = false →
        startApp env =
          (false, { flaskStarted := false, schedulerStarted := false,
                    pollingStarted := false })) := by
  intro env
  refine ⟨?_, ?_, ?_⟩
  · rintro ⟨msg, h⟩
    have hs : initSteps env = Except.error msg := by
      simp [initSteps, h, Bind.bind, Except.bind]
    simp [initApp, hs]
  · rintro ⟨msg, h⟩
    simp [initApp, h]
  · intro h
    simp [startApp, h]

def badCredentialsEnv : InitEnv :=
  { getTelegramToken := Except.error "FatalConfigError: bad credentials",
    getTwelvedataKey := Except.ok "key",
    buildApiClient := fun _ => Except.ok (),
    openDatabase := Except.ok (),
    buildTelegramApp := fun _ => Except.ok (),
    setupScheduler := Except.ok () }

theorem fatal_config_aborts_startup_witness :
    initApp badCredentialsEnv = false ∧
      startApp badCredentialsEnv =
        (false, { flaskStarted := false, schedulerStarted := false,
                  pollingStarted := false }) :=
  ⟨(fatal_config_aborts_startup badCredentialsEnv).1
      ⟨"FatalConfigError: bad credentials", rfl⟩,
    (fatal_config_aborts_startup badCredentialsEnv).2.2
      ((fatal_config_aborts_startup badCredentialsEnv).1
        ⟨"FatalConfigError: bad credentials", rfl⟩)⟩

/-- Mutable component state of the live process, none of which the liveness
endpoints read: whether the scheduler thread, the polling loop and the
running flag are up. -/
structure ProcState where
  schedulerRunning : Bool
  pollingRunning : Bool
  running : Bool
deriving DecidableEq, Repr

/-- An HTTP response body as key-value pairs plus a status code. -/
abbrev HttpResponse := List (String × String) × Nat

/-- `health_check`, the handler for GET / (src/main.py lines 34-37). -/
def health_check : HttpResponse :=
  ([("status", "ok"), ("bot", "running")], 200)

/-- `health`, the handler for GET /health (src/main.py lines 40-43). -/
def health : HttpResponse :=
  ([("status", "healthy")], 200)

/-- The Flask route table of src/main.py: both registered handlers are
constants that consult no process state. -/
def flaskDispatch (_st : ProcState) : String → Option HttpResponse
  | "/" => some health_check
  | "/health" => some health
  | _ => none

/-- C9: whenever the process is alive, GET / and GET /health each return a
static HTTP 200 response with a fixed payload, and the response is identical
across any two process states — independent of scheduler health or any other
component state. -/
theorem health_endpoints_static :
    ∀ st st' : ProcState,
      flaskDispatch st "/" = some ([("status", "ok"), ("bot", "running")], 200) ∧
      flaskDispatch st "/health" = some ([("status", "healthy")], 200) ∧
      flaskDispatch st "/" = flaskDispatch st' "/" ∧
      flaskDispatch st "/health" = flaskDispatch st' "/health" := by
  intro st st'
  exact ⟨rfl, rfl, rfl, rfl⟩

end FiboGoat
